import Mathlib

/-!
Verification of the contact-form web application (src/app.py, src/forms.py).

The embedding models:
- the WTForms validators used by ContactForm in src/forms.py:
  DataRequired (fails exactly on strings that are empty or all whitespace,
  stopping the validation chain for that field) and Length(min=2, max=20);
- the ContactForm field schema: name (DataRequired, Length(2,20)),
  email (EmailField, DataRequired only), message (DataRequired);
- FlaskForm.validate_on_submit: the request method is POST, the CSRF token
  checks out, and every field validates;
- the two route handlers of src/app.py as pure transitions on the
  process-wide message list, returning the flashed notices and the response.
-/

/-- Whitespace as Python str.strip() treats it: the code points on which
str.isspace holds, namely 0x09-0x0D, 0x1C-0x1F, the space, 0x85 (NEL),
0xA0 (NBSP), 0x1680, the 0x2000-0x200A spaces, 0x2028, 0x2029, 0x202F,
0x205F and 0x3000. -/
def pyIsSpace (c : Char) : Bool :=
  (9 ≤ c.val && c.val ≤ 13) || (28 ≤ c.val && c.val ≤ 32) ||
  c.val = 0x85 || c.val = 0xA0 || c.val = 0x1680 ||
  (0x2000 ≤ c.val && c.val ≤ 0x200A) ||
  c.val = 0x2028 || c.val = 0x2029 || c.val = 0x202F ||
  c.val = 0x205F || c.val = 0x3000

/-- True when the string is empty or consists only of whitespace, i.e.
exactly when Python `not s.strip()` holds; this is the failure condition of
the DataRequired validator on a string field. -/
def isBlank (s : String) : Bool :=
  s.toList.all pyIsSpace

/-- Error kinds a field validator can report. -/
inductive FieldError where
  | required
  | length
deriving DecidableEq, Repr

/-- The raw values of the three data-carrying fields of ContactForm. -/
structure FormValues where
  name : String
  email : String
  message : String
deriving DecidableEq, Repr

/-- A submitted form: field values plus whether the CSRF token validates. -/
structure Submission where
  values : FormValues
  csrfOk : Bool
deriving DecidableEq, Repr

/-- Validation of the name field: DataRequired then Length(min=2, max=20).
DataRequired failure stops the chain, so a blank name reports only the
required error; otherwise Length checks the character count. -/
def validateName (s : String) : List FieldError :=
  if isBlank s then [FieldError.required]
  else if 2 ≤ s.length ∧ s.length ≤ 20 then []
  else [FieldError.length]

/-- Validation of the email field: the EmailField in src/forms.py carries
only DataRequired, so the sole check is non-blankness. -/
def validateEmail (s : String) : List FieldError :=
  if isBlank s then [FieldError.required] else []

/-- Validation of the message field: DataRequired only. -/
def validateMessage (s : String) : List FieldError :=
  if isBlank s then [FieldError.required] else []

/-- Per-field error lists produced by running every field validator chain. -/
structure FormErrors where
  nameErrors : List FieldError
  emailErrors : List FieldError
  messageErrors : List FieldError
deriving DecidableEq, Repr

/-- No errors on any field. -/
def noErrors : FormErrors :=
  { nameErrors := [], emailErrors := [], messageErrors := [] }

/-- Run all three field validator chains on the submitted values. -/
def validateFields (v : FormValues) : FormErrors :=
  { nameErrors := validateName v.name
    emailErrors := validateEmail v.email
    messageErrors := validateMessage v.message }

/-- All field error lists are empty. -/
def fieldsOk (e : FormErrors) : Bool :=
  e.nameErrors.isEmpty && e.emailErrors.isEmpty && e.messageErrors.isEmpty

/-- FlaskForm.validate: the CSRF token validates and every field validates. -/
def formValidate (sub : Submission) : Bool :=
  sub.csrfOk && fieldsOk (validateFields sub.values)

/-- HTTP methods relevant to the two routes. -/
inductive Method where
  | get
  | post
deriving DecidableEq, Repr

/-- FlaskForm.validate_on_submit: the form was submitted (POST) and
validates. -/
def validateOnSubmit (method : Method) (sub : Submission) : Bool :=
  (method == Method.post) && formValidate sub

/-- A flash notice as produced by flash(text, category). -/
structure FlashNotice where
  text : String
  category : String
deriving DecidableEq, Repr

/-- The data the contact template is rendered with: the form (its field
values and field-level error annotations) and the current message list. -/
structure ContactContext where
  formValues : FormValues
  errors : FormErrors
  shownMessages : List String
deriving DecidableEq, Repr

/-- An HTTP response: a rendered template with a status code (and, for the
contact page, its render context), or a redirect. -/
inductive Response where
  | render (template : String) (status : Nat) (ctx : Option ContactContext)
  | redirect (location : String) (status : Nat)
deriving DecidableEq, Repr

/-- The outcome of one request: the message list afterwards, the flashed
notices, and the response. -/
structure HandlerResult where
  messagesAfter : List String
  flashes : List FlashNotice
  response : Response
deriving DecidableEq, Repr

/-- The f-string in src/app.py line 24. -/
def formatEntry (v : FormValues) : String :=
  v.name ++ ": " ++ v.email ++ " sent: " ++ v.message

/-- A fresh form on a GET request has empty field values. -/
def blankForm : FormValues :=
  { name := "", email := "", message := "" }

/-- The contact route handler (src/app.py lines 15-29). On a valid POST it
appends the formatted entry, flashes a success notice and redirects to
/contact (Flask redirect defaults to status 302); otherwise it renders the
contact template with status 200, the form and the current messages. -/
def contact (messages : List String) (method : Method) (sub : Submission) :
    HandlerResult :=
  if validateOnSubmit method sub then
    { messagesAfter := messages ++ [formatEntry sub.values]
      flashes := [{ text := "Thanks for message " ++ sub.values.name
                    category := "success" }]
      response := Response.redirect "/contact" 302 }
  else
    { messagesAfter := messages
      flashes := []
      response := Response.render "contact.jinja" 200 (some
        { formValues := if method == Method.post then sub.values else blankForm
          errors := if method == Method.post then validateFields sub.values
                    else noErrors
          shownMessages := messages }) }

/-- The home route handler (src/app.py lines 10-12): renders the home
template with no context and no side effect. -/
def home (messages : List String) : HandlerResult :=
  { messagesAfter := messages
    flashes := []
    response := Response.render "home.jinja" 200 none }

/-- The two routes of the application. -/
inductive Route where
  | homePage
  | contactPage
deriving DecidableEq, Repr

/-- Top-level dispatch of a request to its route handler. -/
def handle (messages : List String) (route : Route) (method : Method)
    (sub : Submission) : HandlerResult :=
  match route with
  | Route.homePage => home messages
  | Route.contactPage => contact messages method sub

/-- C1: every POST /contact whose submission validates appends exactly one
entry name-colon-email-sent-colon-message to the message list, flashes
"Thanks for message name" with category success, and redirects to /contact. -/
theorem valid_post_appends_and_redirects (messages : List String)
    (sub : Submission) (h : validateOnSubmit Method.post sub = true) :
    contact messages Method.post sub =
      { messagesAfter :=
          messages ++ [sub.values.name ++ ": " ++ sub.values.email ++
            " sent: " ++ sub.values.message]
        flashes := [{ text := "Thanks for message " ++ sub.values.name
                      category := "success" }]
        response := Response.redirect "/contact" 302 } := by
  simp [contact, h, formatEntry]

/-- C1 witness: the spec example submission is valid and produces exactly
the expected append, flash and redirect. -/
theorem valid_post_appends_and_redirects_witness :
    validateOnSubmit Method.post
      { values := { name := "Al", email := "al@example.com", message := "Hi" }
        csrfOk := true } = true ∧
    contact [] Method.post
      { values := { name := "Al", email := "al@example.com", message := "Hi" }
        csrfOk := true } =
      { messagesAfter := ["Al: al@example.com sent: Hi"]
        flashes := [{ text := "Thanks for message Al", category := "success" }]
        response := Response.redirect "/contact" 302 } :=
  ⟨by decide,
   valid_post_appends_and_redirects []
     { values := { name := "Al", email := "al@example.com", message := "Hi" }
       csrfOk := true } (by decide)⟩

/-- C2 counterexample: the email "notanemail" contains no at-sign, so it is
not a syntactically valid email address, yet the email field reports no
error and the whole submission validates: the entry is appended. This
refutes the claim that syntactically invalid emails fail validation. -/
theorem invalid_email_accepted_counterexample :
    "notanemail".toList.all (fun c => c ≠ '@') = true ∧
    validateEmail "notanemail" = [] ∧
    contact [] Method.post
      { values := { name := "Al", email := "notanemail", message := "Hi" }
        csrfOk := true } =
      { messagesAfter := ["Al: notanemail sent: Hi"]
        flashes := [{ text := "Thanks for message Al", category := "success" }]
        response := Response.redirect "/contact" 302 } := by
  refine ⟨by decide, by decide, ?_⟩
  decide

/-- C2 amended: the server performs no email-syntax check. The email field
fails validation exactly when its value is blank (empty or whitespace-only),
and then with a required-field error; a submission whose other fields are
valid passes or fails with the blankness of its email, independent of email
syntax. -/
theorem email_checked_only_for_blankness (messages : List String)
    (sub : Submission) (hn : validateName sub.values.name = [])
    (hm : validateMessage sub.values.message = [])
    (hc : sub.csrfOk = true) :
    (isBlank sub.values.email = true →
      validateEmail sub.values.email = [FieldError.required] ∧
      (contact messages Method.post sub).messagesAfter = messages) ∧
    (isBlank sub.values.email = false →
      validateEmail sub.values.email = [] ∧
      (contact messages Method.post sub).messagesAfter =
        messages ++ [formatEntry sub.values]) := by
  constructor
  · intro hb
    have he : validateEmail sub.values.email = [FieldError.required] := by
      simp [validateEmail, hb]
    refine ⟨he, ?_⟩
    have hv : validateOnSubmit Method.post sub = false := by
      simp [validateOnSubmit, formValidate, fieldsOk, validateFields, he]
    simp [contact, hv]
  · intro hb
    have he : validateEmail sub.values.email = [] := by
      simp [validateEmail, hb]
    refine ⟨he, ?_⟩
    have hv : validateOnSubmit Method.post sub = true := by
      simp [validateOnSubmit, formValidate, fieldsOk, validateFields,
        he, hn, hm, hc]
    simp [contact, hv]

/-- C2 amended witness: with valid name and message, the blank email ""
draws a required error and blocks the append, while the syntactically
invalid but non-blank "notanemail" passes and the entry is appended. -/
theorem email_checked_only_for_blankness_witness :
    validateName "Al" = [] ∧ validateMessage "Hi" = [] ∧
    isBlank "notanemail" = false ∧
    validateEmail "notanemail" = [] ∧
    (contact [] Method.post
      { values := { name := "Al", email := "notanemail", message := "Hi" }
        csrfOk := true }).messagesAfter = ["Al: notanemail sent: Hi"] :=
  ⟨by decide, by decide, by decide,
   ((email_checked_only_for_blankness []
      { values := { name := "Al", email := "notanemail", message := "Hi" }
        csrfOk := true } (by decide) (by decide) (by decide)).2
    (by decide)).1,
   ((email_checked_only_for_blankness []
      { values := { name := "Al", email := "notanemail", message := "Hi" }
        csrfOk := true } (by decide) (by decide) (by decide)).2
    (by decide)).2⟩

/-- C3: every POST /contact whose submission fails validation returns status
200 rendering the contact template with the submitted form values, the
field-level errors and the current message list, and the message list is
unchanged; no HTTP error status is produced. -/
theorem invalid_post_rerenders_unchanged (messages : List String)
    (sub : Submission) (h : formValidate sub = false) :
    contact messages Method.post sub =
      { messagesAfter := messages
        flashes := []
        response := Response.render "contact.jinja" 200 (some
          { formValues := sub.values
            errors := validateFields sub.values
            shownMessages := messages }) } := by
  have hv : validateOnSubmit Method.post sub = false := by
    simp [validateOnSubmit, h]
  simp [contact, hv]

/-- C3 witness: an all-empty submission fails validation and the handler
re-renders with status 200, leaving the one existing message in place. -/
theorem invalid_post_rerenders_unchanged_witness :
    formValidate { values := { name := "", email := "", message := "" }
                   csrfOk := true } = false ∧
    contact ["old"] Method.post
      { values := { name := "", email := "", message := "" }
        csrfOk := true } =
      { messagesAfter := ["old"]
        flashes := []
        response := Response.render "contact.jinja" 200 (some
          { formValues := { name := "", email := "", message := "" }
            errors := { nameErrors := [FieldError.required]
                        emailErrors := [FieldError.required]
                        messageErrors := [FieldError.required] }
            shownMessages := ["old"] }) } :=
  ⟨by decide,
   Eq.trans
     (invalid_post_rerenders_unchanged ["old"]
       { values := { name := "", email := "", message := "" }
         csrfOk := true } (by decide))
     (by decide)⟩

/-- C4 counterexample: the empty name has length 0, outside [2,20], yet the
name field reports a required-field error and no length error, because
DataRequired runs first and stops the chain. This refutes the claim that
every out-of-range length yields a length error. -/
theorem empty_name_gets_required_not_length :
    "".length = 0 ∧
    validateName "" = [FieldError.required] ∧
    FieldError.length ∉ validateName "" := by
  refine ⟨rfl, by decide, by decide⟩

/-- C4 amended: for every name of length outside [2,20], validation of the
name field fails; the reported error is a length error when the name
contains a non-whitespace character, and a required-field error when the
name is empty or whitespace-only. -/
theorem name_length_out_of_range_fails (s : String)
    (h : s.length < 2 ∨ 20 < s.length) :
    validateName s ≠ [] ∧
    (isBlank s = false → validateName s = [FieldError.length]) ∧
    (isBlank s = true → validateName s = [FieldError.required]) := by
  refine ⟨?_, ?_, ?_⟩
  · unfold validateName
    split
    · simp
    · split
      · omega
      · simp
  · intro hb
    unfold validateName
    rw [hb]
    simp only [Bool.false_eq_true, if_false]
    split
    · omega
    · rfl
  · intro hb
    simp [validateName, hb]

/-- C4 amended witness: the one-character name "a" is non-blank and too
short, drawing exactly a length error. -/
theorem name_length_out_of_range_fails_witness :
    ("a".length < 2 ∨ 20 < "a".length) ∧
    isBlank "a" = false ∧
    validateName "a" = [FieldError.length] :=
  ⟨Or.inl (by decide), by decide,
   (name_length_out_of_range_fails "a" (Or.inl (by decide))).2.1 (by decide)⟩

/-- C5: every submission whose message field is the empty string fails
validation with a required-field error on the message field, and the form
as a whole does not validate. -/
theorem empty_message_fails_required (sub : Submission)
    (h : sub.values.message = "") :
    (validateFields sub.values).messageErrors = [FieldError.required] ∧
    formValidate sub = false := by
  have hm : validateMessage sub.values.message = [FieldError.required] := by
    rw [h]
    decide
  refine ⟨by simp [validateFields, hm], ?_⟩
  simp [formValidate, fieldsOk, validateFields, hm]

/-- C5 witness: a submission identical to the valid example except for an
empty message draws the required error and fails validation. -/
theorem empty_message_fails_required_witness :
    (validateFields ⟨"Al", "al@example.com", ""⟩).messageErrors =
      [FieldError.required] ∧
    formValidate ⟨⟨"Al", "al@example.com", ""⟩, true⟩ = false :=
  empty_message_fails_required ⟨⟨"Al", "al@example.com", ""⟩, true⟩ rfl

/-- C6: from any starting message list, two consecutive valid POST
submissions extend the list by exactly their two formatted entries, in
processing order. -/
theorem two_valid_posts_append_in_order (messages : List String)
    (sub1 sub2 : Submission)
    (h1 : validateOnSubmit Method.post sub1 = true)
    (h2 : validateOnSubmit Method.post sub2 = true) :
    (contact (contact messages Method.post sub1).messagesAfter
        Method.post sub2).messagesAfter =
      messages ++ [formatEntry sub1.values, formatEntry sub2.values] := by
  simp [contact, h1, h2]

/-- C6 witness: two concrete valid submissions append their two entries in
order to the empty log. -/
theorem two_valid_posts_append_in_order_witness :
    validateOnSubmit Method.post
      { values := { name := "Al", email := "al@example.com", message := "Hi" }
        csrfOk := true } = true ∧
    validateOnSubmit Method.post
      { values := { name := "Bo", email := "bo@example.com", message := "Yo" }
        csrfOk := true } = true ∧
    (contact (contact [] Method.post
        { values := { name := "Al", email := "al@example.com", message := "Hi" }
          csrfOk := true }).messagesAfter Method.post
      { values := { name := "Bo", email := "bo@example.com", message := "Yo" }
        csrfOk := true }).messagesAfter =
      ["Al: al@example.com sent: Hi", "Bo: bo@example.com sent: Yo"] :=
  ⟨by decide, by decide,
   Eq.trans
     (two_valid_posts_append_in_order []
       { values := { name := "Al", email := "al@example.com", message := "Hi" }
         csrfOk := true }
       { values := { name := "Bo", email := "bo@example.com", message := "Yo" }
         csrfOk := true } (by decide) (by decide))
     (by decide)⟩

/-- C7: the message list is append-only: for every request to either route,
with any method and any submission, the list before the request is a prefix
of the list after it. -/
theorem message_log_append_only (messages : List String) (route : Route)
    (method : Method) (sub : Submission) :
    ∃ tail, (handle messages route method sub).messagesAfter =
      messages ++ tail := by
  cases route with
  | homePage => exact ⟨[], by simp [handle, home]⟩
  | contactPage =>
    by_cases h : validateOnSubmit method sub = true
    · exact ⟨[formatEntry sub.values], by simp [handle, contact, h]⟩
    · exact ⟨[], by simp [handle, contact, h]⟩

/-- C8: GET requests are pure: GET / returns status 200 and leaves the
message list and all other state unchanged; GET /contact attempts no
validation and renders the blank form with no errors and the current
message list, also leaving the message list unchanged. -/
theorem get_requests_pure (messages : List String) (sub : Submission) :
    home messages =
      { messagesAfter := messages
        flashes := []
        response := Response.render "home.jinja" 200 none } ∧
    contact messages Method.get sub =
      { messagesAfter := messages
        flashes := []
        response := Response.render "contact.jinja" 200 (some
          { formValues := blankForm
            errors := noErrors
            shownMessages := messages }) } := by
  constructor
  · rfl
  · have hv : validateOnSubmit Method.get sub = false := by
      simp [validateOnSubmit]
    simp [contact, hv]

/-- C9: a non-empty name or message consisting only of whitespace is
rejected with a required-field error, because DataRequired strips the value
and treats a whitespace-only string as missing. -/
theorem whitespace_only_rejected_as_required (s : String)
    (_hne : s ≠ "") (hb : isBlank s = true) :
    validateName s = [FieldError.required] ∧
    validateMessage s = [FieldError.required] :=
  ⟨by simp [validateName, hb], by simp [validateMessage, hb]⟩

/-- C9 witness: the single-space, NBSP-only and file-separator-only strings
are non-empty yet blank to str.strip, so the name and message fields reject
each of them with the required error. -/
theorem whitespace_only_rejected_as_required_witness :
    (" " ≠ "" ∧ isBlank " " = true ∧
     validateName " " = [FieldError.required] ∧
     validateMessage " " = [FieldError.required]) ∧
    ("\u00A0" ≠ "" ∧ isBlank "\u00A0" = true ∧
     validateName "\u00A0" = [FieldError.required]) ∧
    ("\u001C" ≠ "" ∧ isBlank "\u001C" = true ∧
     validateMessage "\u001C" = [FieldError.required]) :=
  ⟨⟨by decide, by decide,
    (whitespace_only_rejected_as_required " " (by decide) (by decide)).1,
    (whitespace_only_rejected_as_required " " (by decide) (by decide)).2⟩,
   ⟨by decide, by decide,
    (whitespace_only_rejected_as_required "\u00A0"
      (by decide) (by decide)).1⟩,
   ⟨by decide, by decide,
    (whitespace_only_rejected_as_required "\u001C"
      (by decide) (by decide)).2⟩⟩

/-- C10: a POST /contact whose CSRF token does not validate fails
validate_on_submit whatever the field values are, so nothing is appended to
the message list and the contact page is re-rendered with status 200. -/
theorem missing_csrf_blocks_append (messages : List String)
    (sub : Submission) (h : sub.csrfOk = false) :
    validateOnSubmit Method.post sub = false ∧
    contact messages Method.post sub =
      { messagesAfter := messages
        flashes := []
        response := Response.render "contact.jinja" 200 (some
          { formValues := sub.values
            errors := validateFields sub.values
            shownMessages := messages }) } := by
  have hv : validateOnSubmit Method.post sub = false := by
    simp [validateOnSubmit, formValidate, h]
  exact ⟨hv, by simp [contact, hv]⟩

/-- C10 witness: a submission with fully valid field values but a failing
CSRF token does not validate and leaves the empty message list empty. -/
theorem missing_csrf_blocks_append_witness :
    (Submission.mk ⟨"Al", "al@example.com", "Hi"⟩ false).csrfOk = false ∧
    validateOnSubmit Method.post
      (Submission.mk ⟨"Al", "al@example.com", "Hi"⟩ false) = false ∧
    (contact [] Method.post
      (Submission.mk ⟨"Al", "al@example.com", "Hi"⟩ false)).messagesAfter =
      [] :=
  ⟨rfl,
   (missing_csrf_blocks_append []
     (Submission.mk ⟨"Al", "al@example.com", "Hi"⟩ false) rfl).1,
   by rw [(missing_csrf_blocks_append []
       (Submission.mk ⟨"Al", "al@example.com", "Hi"⟩ false) rfl).2]⟩
